import Mathlib

/-!
Verification of the persistence layer of the EduRing song-voting web
application (`modules/databasewrapper.py`).  The development shallowly
embeds the `DatabaseWrapper` class: each repository method becomes a Lean
function over an explicit database state, the two engine branches
(`mysql` / `sqlite`) are kept separate exactly as in the source, and the
storage statements that the source wraps in `try`/`except` take an
explicit fault flag.  Python text values that the source base64-encodes
are modelled as UTF-8 byte lists (`List Nat`, each entry < 256).
-/

/-! ## Base64 (model of Python `base64.b64encode` / `base64.b64decode`)

The source obfuscates usernames and song names with
`base64.b64encode(text.encode()).decode()` and reverses this with
`base64.b64decode(stored.encode()).decode()`.  We model both over byte
lists, per RFC 4648: three input bytes become four alphabet bytes, a
final group of one or two bytes is padded with the byte 61 (the ASCII
code of the padding character). -/

/-- ASCII codes of the 64 characters of the standard base64 alphabet,
uppercase letters, lowercase letters, digits, plus and slash. -/
def b64Alphabet : List Nat :=
  [65, 66, 67, 68, 69, 70, 71, 72, 73, 74, 75, 76, 77, 78, 79, 80,
   81, 82, 83, 84, 85, 86, 87, 88, 89, 90,
   97, 98, 99, 100, 101, 102, 103, 104, 105, 106, 107, 108, 109, 110,
   111, 112, 113, 114, 115, 116, 117, 118, 119, 120, 121, 122,
   48, 49, 50, 51, 52, 53, 54, 55, 56, 57, 43, 47]

/-- ASCII code of the base64 padding character. -/
def b64Pad : Nat := 61

/-- byte of the base64 alphabet encoding the sextet `n` (`n < 64`). -/
def b64Code (n : Nat) : Nat := b64Alphabet.getD n 0

/-- sextet encoded by the alphabet byte `c`, or `none` when `c` is not in
the alphabet (in Python, `b64decode` rejects such input). -/
def b64Idx (c : Nat) : Option Nat := b64Alphabet.findIdx? (fun x => x == c)

/-- base64-encode a byte list: model of `base64.b64encode`. -/
def b64e : List Nat → List Nat
  | [] => []
  | [a] => [b64Code (a / 4), b64Code (a % 4 * 16), b64Pad, b64Pad]
  | [a, b] => [b64Code (a / 4), b64Code (a % 4 * 16 + b / 16),
               b64Code (b % 16 * 4), b64Pad]
  | a :: b :: c :: rest =>
      b64Code (a / 4) :: b64Code (a % 4 * 16 + b / 16) ::
      b64Code (b % 16 * 4 + c / 64) :: b64Code (c % 64) :: b64e rest

/-- base64-decode a byte list: model of `base64.b64decode`, returning
`none` where Python raises `binascii.Error`. -/
def b64d : List Nat → Option (List Nat)
  | [] => some []
  | w :: x :: y :: z :: rest =>
      if z = b64Pad then
        if rest = [] then
          if y = b64Pad then
            match b64Idx w, b64Idx x with
            | some s1, some s2 => some [s1 * 4 + s2 / 16]
            | _, _ => none
          else
            match b64Idx w, b64Idx x, b64Idx y with
            | some s1, some s2, some s3 =>
                some [s1 * 4 + s2 / 16, s2 % 16 * 16 + s3 / 4]
            | _, _, _ => none
        else none
      else
        match b64Idx w, b64Idx x, b64Idx y, b64Idx z, b64d rest with
        | some s1, some s2, some s3, some s4, some bs =>
            some ((s1 * 4 + s2 / 16) :: (s2 % 16 * 16 + s3 / 4) ::
                  (s3 % 4 * 64 + s4) :: bs)
        | _, _, _, _, _ => none
  | _ => none

theorem b64Idx_b64Code : ∀ n, n < 64 → b64Idx (b64Code n) = some n := by decide

theorem b64Code_ne_pad : ∀ n, n < 64 → b64Code n ≠ b64Pad := by decide

theorem b64_roundtrip : ∀ l : List Nat, (∀ b ∈ l, b < 256) → b64d (b64e l) = some l
  | [], _ => rfl
  | [a], h => by
      have ha : a < 256 := h a (by simp)
      have h1 : a / 4 < 64 := by omega
      have h2 : a % 4 * 16 < 64 := by omega
      simp only [b64e, b64d, if_pos rfl, b64Idx_b64Code _ h1, b64Idx_b64Code _ h2]
      simp
      omega
  | [a, b], h => by
      have ha : a < 256 := h a (by simp)
      have hb : b < 256 := h b (by simp)
      have h1 : a / 4 < 64 := by omega
      have h2 : a % 4 * 16 + b / 16 < 64 := by omega
      have h3 : b % 16 * 4 < 64 := by omega
      have hy : b64Code (b % 16 * 4) ≠ b64Pad := b64Code_ne_pad _ h3
      simp only [b64e, b64d, if_pos rfl, if_neg hy,
        b64Idx_b64Code _ h1, b64Idx_b64Code _ h2, b64Idx_b64Code _ h3]
      simp
      constructor
      · omega
      · omega
  | a :: b :: c :: rest, h => by
      have ha : a < 256 := h a (by simp)
      have hb : b < 256 := h b (by simp)
      have hc : c < 256 := h c (by simp)
      have h1 : a / 4 < 64 := by omega
      have h2 : a % 4 * 16 + b / 16 < 64 := by omega
      have h3 : b % 16 * 4 + c / 64 < 64 := by omega
      have h4 : c % 64 < 64 := by omega
      have hz : b64Code (c % 64) ≠ b64Pad := b64Code_ne_pad _ h4
      have ih : b64d (b64e rest) = some rest :=
        b64_roundtrip rest (fun x hx => h x (by simp [hx]))
      show b64d (b64Code (a / 4) :: b64Code (a % 4 * 16 + b / 16) ::
        b64Code (b % 16 * 4 + c / 64) :: b64Code (c % 64) :: b64e rest) = _
      simp only [b64d, if_neg hz, b64Idx_b64Code _ h1, b64Idx_b64Code _ h2,
        b64Idx_b64Code _ h3, b64Idx_b64Code _ h4, ih]
      simp only [Option.some.injEq, List.cons.injEq, and_true]
      refine ⟨by omega, by omega, by omega⟩

/-- the base64 encoding of `l` has length `4 * ceil (length l / 3)`. -/
theorem b64e_length : ∀ l : List Nat, (b64e l).length = 4 * ((l.length + 2) / 3)
  | [] => rfl
  | [_] => by simp [b64e]
  | [_, _] => by simp [b64e]
  | _ :: _ :: _ :: rest => by
      simp only [b64e, List.length_cons, b64e_length rest]
      omega

/-- a nonempty byte list is never equal to its own base64 encoding: the
encoding is strictly longer. -/
theorem b64e_ne_self (l : List Nat) (h : l ≠ []) : b64e l ≠ l := by
  intro heq
  have hlen : (b64e l).length = l.length := by rw [heq]
  rw [b64e_length] at hlen
  have : l.length ≠ 0 := fun h0 => h (List.eq_nil_of_length_eq_zero h0)
  omega

/-! ## Data model

The four relations of the documented schema (`Users`, `Songs`,
`Song_Votes`, `Song_Submissions`), with engine-native column types
modelled as: surrogate keys `Nat`, text `String`, nullable text
`Option String`, booleans `Bool`, counters `Nat`.  The base64-encoded
columns (`Users.username`, `Songs.song_name`) hold byte lists, matching
the fact that the source stores the output of `b64encode`. -/

structure UserRow where
  user_id : Nat
  username : List Nat
  first_login_datetime : String
  last_login_datetime : String
  first_login_ip : String
  last_login_ip : String
  last_song_submission_datetime : Option String
  voted_songs_ids : Option String
  submitted_songs_ids : Option String
deriving DecidableEq

structure SongRow where
  song_id : String
  is_being_hidden : Bool
  user_id : Nat
  song_name : List Nat
  is_explicit : Bool
  vote_count : Nat
deriving DecidableEq

structure VoteRow where
  user_id : Nat
  song_id : String
  vote_datetime : String
deriving DecidableEq

structure SubmissionRow where
  user_id : Nat
  song_id : String
  submission_datetime : String
deriving DecidableEq

/-- committed contents of the store, plus the engine's next autoincrement
value for `Users.user_id`. -/
structure DBState where
  users : List UserRow
  songs : List SongRow
  song_votes : List VoteRow
  song_submissions : List SubmissionRow
  next_user_id : Nat
deriving DecidableEq

/-- engine tag held in `DatabaseWrapper.db_type`: every repository method
branches on it. -/
inductive DbType where
  | mysql
  | sqlite
deriving DecidableEq

/-- Python exceptions observable at the repository boundary.
`storageFault` stands for an error raised by the storage driver during a
statement; `programmingError` for MySQLdb's `ProgrammingError`, raised
client-side when a query written with `?` placeholders is executed with
an argument tuple under that driver's `format` paramstyle;
`attributeError` for calling a method that the receiver does not have;
`decodeError` for `binascii.Error` from `base64.b64decode`. -/
inductive PyErr where
  | storageFault
  | programmingError
  | attributeError
  | decodeError
deriving DecidableEq

/-! ## Repository operations (`DatabaseWrapper` methods)

Each method takes one `Bool` fault flag per fallible storage statement
(`true` means the driver raises on that statement) and the current
timestamp as an explicit argument standing for `datetime.now()`.  Since
uncommitted statements are undone by `rollback()`, a run that ends in a
rollback leaves the committed state unchanged, and the model returns the
input state there.

The two engine branches differ sharply.  `flask_mysqldb` hands out
MySQLdb connections, and MySQLdb's paramstyle is `format` (`%s`), so
every data-path query in the source — written with `?` placeholders and
executed with an argument tuple — raises `ProgrammingError` client-side
on the mysql branch before anything reaches the store.  The mysql
branches of the data methods below therefore never perform their
statements: they take the exception path of their `try`/`except` (or let
the exception escape where there is none), always leaving the store
untouched.  Only the unparameterized schema DDL works on that engine.
The fault flags drive the sqlite branches and are ignored by a mysql
branch that fails before its first statement. -/

/-- value stored by the SQL fragment
`CASE WHEN ids IS NULL THEN ? ELSE CONCAT(ids, ',', ?) END` used for
`voted_songs_ids` and `submitted_songs_ids`. -/
def appendId : Option String → String → Option String
  | none, sid => some sid
  | some old, sid => some (old ++ "," ++ sid)

/-- row inserted by `register_new_user`: base64-encoded username, the
current time as both login datetimes, `ip` as both IPs, and NULL for the
submission datetime and both id lists. -/
def registeredUser (uid : Nat) (username : List Nat) (ip now : String) : UserRow :=
  { user_id := uid
    username := b64e username
    first_login_datetime := now
    last_login_datetime := now
    first_login_ip := ip
    last_login_ip := ip
    last_song_submission_datetime := none
    voted_songs_ids := none
    submitted_songs_ids := none }

/-- model of `DatabaseWrapper.register_new_user`: INSERT a fresh user row
and return `cur.lastrowid`; on any exception the except-branch rolls
back and returns -1.  On the mysql branch the `?`-parameterized INSERT
raises `ProgrammingError` client-side, so the method always returns -1
with the store untouched; the sqlite branch succeeds unless the
statement faults. -/
def register_new_user (db : DbType) (fault : Bool) (username : List Nat)
    (ip now : String) (s : DBState) : Int × DBState :=
  match db with
  | .mysql => (-1, s)
  | .sqlite =>
      if fault then (-1, s)
      else (Int.ofNat s.next_user_id,
        { s with users := s.users ++ [registeredUser s.next_user_id username ip now]
                 next_user_id := s.next_user_id + 1 })

/-- model of `DatabaseWrapper.user_exists`: SELECT by the base64-encoded
username; the surrounding `try` turns any exception into `False`.  On
the mysql branch the `?`-parameterized SELECT raises inside the `try`,
so the method always returns `False` there. -/
def user_exists (db : DbType) (fault : Bool) (username : List Nat)
    (s : DBState) : Bool :=
  match db with
  | .mysql => false
  | .sqlite =>
      if fault then false
      else s.users.any (fun r => r.username == b64e username)

/-- dictionary built by `get_user_details`, with the username run through
`base64.b64decode`. -/
structure UserDetails where
  user_id : Nat
  username : List Nat
  first_login_datetime : String
  last_login_datetime : String
  first_login_ip : String
  last_login_ip : String
  last_song_submission_datetime : Option String
  voted_songs_ids : Option String
  submitted_songs_ids : Option String
deriving DecidableEq

/-- model of `DatabaseWrapper.get_user_details`: SELECT by `user_id`,
decode the stored username, return `None` when no row matches.  The
source wraps nothing in `try`/`except`, so every exception escapes: the
mysql branch raises `ProgrammingError` on every call (its
`?`-parameterized SELECT never executes), and on the sqlite branch a
storage fault or a `b64decode` failure escapes. -/
def get_user_details (db : DbType) (fault : Bool) (user_id : Nat)
    (s : DBState) : Except PyErr (Option UserDetails) :=
  match db with
  | .mysql => .error .programmingError
  | .sqlite =>
      if fault then .error .storageFault
      else
        match s.users.find? (fun r => r.user_id == user_id) with
        | none => .ok none
        | some r =>
            match b64d r.username with
            | none => .error .decodeError
            | some u =>
                .ok (some
                  { user_id := r.user_id
                    username := u
                    first_login_datetime := r.first_login_datetime
                    last_login_datetime := r.last_login_datetime
                    first_login_ip := r.first_login_ip
                    last_login_ip := r.last_login_ip
                    last_song_submission_datetime := r.last_song_submission_datetime
                    voted_songs_ids := r.voted_songs_ids
                    submitted_songs_ids := r.submitted_songs_ids })

/-- model of `DatabaseWrapper.update_user_login_info`: UPDATE the last
login datetime and IP of the rows matching `user_id` (zero rows when the
user does not exist); any exception is caught, rolled back and turned
into `False`.  On the mysql branch the `?`-parameterized UPDATE raises
client-side, so the method always returns `False` with the store
untouched. -/
def update_user_login_info (db : DbType) (fault : Bool) (user_id : Nat)
    (ip now : String) (s : DBState) : Bool × DBState :=
  match db with
  | .mysql => (false, s)
  | .sqlite =>
      if fault then (false, s)
      else (true,
        { s with users := s.users.map (fun r =>
            if r.user_id == user_id then
              { r with last_login_datetime := now, last_login_ip := ip }
            else r) })

/-- model of `DatabaseWrapper.update_username`.  The sqlite branch runs
`UPDATE Users SET username = ? WHERE user_id = ?` storing `new_username`
verbatim, without the base64 encoding that `register_new_user` applies,
and catches faults as `False`.  The mysql branch is doubly broken in the
source: the `?`-parameterized UPDATE raises `ProgrammingError`
client-side (and even without that, the `try` block's `cur.commit()`
would raise `AttributeError`, a MySQLdb cursor having no `commit`
method), so an exception always reaches the `except` handler, whose own
`cur.rollback()` call raises `AttributeError` (cursors have no
`rollback` either) and that second exception escapes the method;
nothing is ever committed. -/
def update_username (db : DbType) (fault : Bool) (user_id : Nat)
    (new_username : List Nat) (s : DBState) : Except PyErr (Bool × DBState) :=
  match db with
  | .mysql =>
      let tryBlock : Except PyErr Bool := .error .programmingError
      match tryBlock with
      | .ok r => .ok (r, s)
      | .error _ => .error .attributeError
  | .sqlite =>
      if fault then .ok (false, s)
      else .ok (true,
        { s with users := s.users.map (fun r =>
            if r.user_id == user_id then { r with username := new_username }
            else r) })

/-- effect of the three statements of `submit_song` once committed:
INSERT the song with `is_being_hidden = FALSE` and `vote_count = 0`,
INSERT the submission row, and UPDATE the owner's
`last_song_submission_datetime` and `submitted_songs_ids`. -/
def submitSongEffect (user_id : Nat) (song_id : String) (encName : List Nat)
    (is_explicit : Bool) (now : String) (s : DBState) : DBState :=
  { s with
    songs := s.songs ++ [{ song_id := song_id
                           is_being_hidden := false
                           user_id := user_id
                           song_name := encName
                           is_explicit := is_explicit
                           vote_count := 0 }]
    song_submissions := s.song_submissions ++
      [{ user_id := user_id, song_id := song_id, submission_datetime := now }]
    users := s.users.map (fun r =>
      if r.user_id == user_id then
        { r with last_song_submission_datetime := some now
                 submitted_songs_ids := appendId r.submitted_songs_ids song_id }
      else r) }

/-- model of `DatabaseWrapper.submit_song`: three statements under one
transaction; a fault on any of them (the first also faults on a
duplicate `song_id`, the table's primary key) reaches the `except`
handler, which rolls all three back and returns `False`.  On the mysql
branch the first `?`-parameterized INSERT raises client-side, so the
method always returns `False` with the store untouched. -/
def submit_song (db : DbType) (f1 f2 f3 : Bool) (user_id : Nat)
    (song_id : String) (song_name : List Nat) (is_explicit : Bool)
    (now : String) (s : DBState) : Bool × DBState :=
  match db with
  | .mysql => (false, s)
  | .sqlite =>
      if f1 || s.songs.any (fun r => r.song_id == song_id) then (false, s)
      else if f2 then (false, s)
      else if f3 then (false, s)
      else (true, submitSongEffect user_id song_id (b64e song_name) is_explicit now s)

/-- entry of the dictionary returned by `get_songs_and_info`, keyed by
`song_id`, with both base64 columns decoded. -/
structure SongInfo where
  is_being_hidden : Bool
  user_id : Nat
  song_name : List Nat
  is_explicit : Bool
  vote_count : Nat
  submitter_username : List Nat
  submitter_last_login : String
  submitter_last_ip : String
deriving DecidableEq

/-- model of `DatabaseWrapper.get_songs_and_info`: JOIN Songs to Users on
the owner and decode both base64 columns; `None` when no rows or on any
exception inside the `try`.  The mysql branch always returns `None` in
the source: it calls `self.mysql.connection.cursor(dictionary=True)`,
but a MySQLdb connection's `cursor` accepts no `dictionary` keyword
(that is the API of a different driver), so a `TypeError` is raised
inside the `try` and the handler returns `None` before the query runs. -/
def get_songs_and_info (db : DbType) (fault : Bool) (s : DBState) :
    Option (List (String × SongInfo)) :=
  match db with
  | .mysql => none
  | .sqlite =>
      if fault then none
      else
        let rows : List (SongRow × UserRow) := s.songs.filterMap (fun sr =>
          (s.users.find? (fun u => u.user_id == sr.user_id)).map (fun u => (sr, u)))
        if rows.isEmpty then none
        else
          match rows.mapM (fun p =>
            match b64d p.1.song_name, b64d p.2.username with
            | some nm, some un =>
                (some (p.1.song_id,
                  { is_being_hidden := p.1.is_being_hidden
                    user_id := p.1.user_id
                    song_name := nm
                    is_explicit := p.1.is_explicit
                    vote_count := p.1.vote_count
                    submitter_username := un
                    submitter_last_login := p.2.last_login_datetime
                    submitter_last_ip := p.2.last_login_ip }) :
                  Option (String × SongInfo))
            | _, _ => none) with
          | none => none
          | some l => some l

/-- effect of the three mutating statements of `vote_song` once
committed: INSERT the vote row, increment `vote_count` of the rows
matching `song_id`, and update the voter's `voted_songs_ids`. -/
def voteEffect (user_id : Nat) (song_id : String) (now : String)
    (s : DBState) : DBState :=
  { s with
    song_votes := s.song_votes ++
      [{ user_id := user_id, song_id := song_id, vote_datetime := now }]
    songs := s.songs.map (fun r =>
      if r.song_id == song_id then { r with vote_count := r.vote_count + 1 }
      else r)
    users := s.users.map (fun r =>
      if r.user_id == user_id then
        { r with voted_songs_ids := appendId r.voted_songs_ids song_id }
      else r) }

/-- model of `DatabaseWrapper.vote_song`: SELECT for an existing
(user_id, song_id) vote row; if one exists return `False` with no
mutation; otherwise run the three mutating statements and commit,
returning `True`.  Any fault (flag `fc` for the SELECT, `f1 f2 f3` for
the three mutations) reaches the `except` handler, which rolls back and
returns `False`.  On the mysql branch the `?`-parameterized check SELECT
raises client-side, so the method always returns `False` with the store
untouched. -/
def vote_song (db : DbType) (fc f1 f2 f3 : Bool) (user_id : Nat)
    (song_id : String) (now : String) (s : DBState) : Bool × DBState :=
  match db with
  | .mysql => (false, s)
  | .sqlite =>
      if fc then (false, s)
      else if s.song_votes.any (fun v => v.user_id == user_id && v.song_id == song_id) then
        (false, s)
      else if f1 || f2 || f3 then (false, s)
      else (true, voteEffect user_id song_id now s)

/-! ## Schema construction

`construct_mysql_database` and `construct_sqlite_database` are modelled
over the list of table names present in the store, together with the
trace of DDL statements each call executes, in execution order. -/

/-- a DDL statement: either `CREATE TABLE IF NOT EXISTS` carrying its
inline foreign-key clauses as (column, referenced table, referenced
column) triples, or a separate
`ALTER TABLE .. ADD CONSTRAINT .. FOREIGN KEY` statement. -/
inductive DDL where
  | createTable (name : String) (inlineFKs : List (String × String × String))
  | addForeignKey (tbl cname col refTbl refCol : String)
deriving DecidableEq

def DDL.isCreateTable : DDL → Bool
  | .createTable _ _ => true
  | .addForeignKey _ _ _ _ _ => false

/-- number of inline foreign-key clauses of a DDL statement. -/
def DDL.inlineFKCount : DDL → Nat
  | .createTable _ fks => fks.length
  | .addForeignKey _ _ _ _ _ => 0

/-- the `table_creation_queries` list of `construct_mysql_database`: four
CREATE TABLE statements, none with an inline foreign key. -/
def mysql_table_creation_queries : List DDL :=
  [.createTable "Users" [],
   .createTable "Songs" [],
   .createTable "Song_Votes" [],
   .createTable "Song_Submissions" []]

/-- the `foreign_key_constraints` list of `construct_mysql_database`:
five separate ALTER TABLE statements. -/
def mysql_foreign_key_constraints : List DDL :=
  [.addForeignKey "Songs" "Songs_fk2" "user_id" "Users" "user_id",
   .addForeignKey "Song_Votes" "Song_Votes_fk0" "user_id" "Users" "user_id",
   .addForeignKey "Song_Votes" "Song_Votes_fk1" "song_id" "Songs" "song_id",
   .addForeignKey "Song_Submissions" "Song_Submissions_fk0" "user_id" "Users" "user_id",
   .addForeignKey "Song_Submissions" "Song_Submissions_fk1" "song_id" "Songs" "song_id"]

/-- the `tables` dictionary of `construct_sqlite_database`: four CREATE
TABLE statements with their foreign keys declared inline. -/
def sqlite_tables : List DDL :=
  [.createTable "Users" [],
   .createTable "Songs" [("user_id", "Users", "user_id")],
   .createTable "Song_Votes"
     [("user_id", "Users", "user_id"), ("song_id", "Songs", "song_id")],
   .createTable "Song_Submissions"
     [("user_id", "Users", "user_id"), ("song_id", "Songs", "song_id")]]

/-- table names a DDL trace creates. -/
def createdNames (l : List DDL) : List String :=
  l.filterMap (fun d => match d with
    | .createTable n _ => some n
    | .addForeignKey _ _ _ _ _ => none)

/-- model of `construct_mysql_database` over the list of existing table
names: `SHOW TABLES`; if any exist return 1 untouched, else run the four
CREATE TABLE statements and then the five ALTER TABLE statements and
return 0. -/
def construct_mysql_database (tables : List String) : Nat × List String :=
  if tables.isEmpty then
    (0, tables ++ createdNames mysql_table_creation_queries)
  else (1, tables)

/-- DDL statements a `construct_mysql_database` call executes, in
execution order: none when a table already exists, otherwise all CREATE
TABLE statements followed by all ALTER TABLE constraint statements. -/
def construct_mysql_trace (tables : List String) : List DDL :=
  if tables.isEmpty then
    mysql_table_creation_queries ++ mysql_foreign_key_constraints
  else []

/-- model of `construct_sqlite_database`: query `sqlite_master`; if any
table exists return 1 untouched, else run the four CREATE TABLE
statements (foreign keys inline) and return 0. -/
def construct_sqlite_database (tables : List String) : Nat × List String :=
  if tables.isEmpty then (0, tables ++ createdNames sqlite_tables)
  else (1, tables)

/-- DDL statements a `construct_sqlite_database` call executes, in
execution order. -/
def construct_sqlite_trace (tables : List String) : List DDL :=
  if tables.isEmpty then sqlite_tables else []

/-! ## Helper lemmas and concrete states for witnesses -/

/-- an UPDATE whose WHERE clause matches no row leaves the table
unchanged. -/
theorem users_map_untouched (l : List UserRow) (uid : Nat)
    (f : UserRow → UserRow) (h : ∀ r ∈ l, r.user_id ≠ uid) :
    l.map (fun r => if r.user_id == uid then f r else r) = l := by
  induction l with
  | nil => rfl
  | cons a t ih =>
      simp only [List.map_cons]
      rw [if_neg (by simpa using h a (List.mem_cons_self a t)),
        ih (fun r hr => h r (List.mem_cons_of_mem _ hr))]

/-- the empty store. -/
def emptyDB : DBState :=
  { users := [], songs := [], song_votes := [], song_submissions := []
    next_user_id := 1 }

/-- concrete store for witnesses: one registered user (id 1, username
"bob" stored base64-encoded) owning one song "SONG1" with no votes. -/
def wUser : UserRow :=
  { user_id := 1
    username := b64e [98, 111, 98]
    first_login_datetime := "2024-01-01 10:00:00"
    last_login_datetime := "2024-01-01 10:00:00"
    first_login_ip := "1.2.3.4"
    last_login_ip := "1.2.3.4"
    last_song_submission_datetime := none
    voted_songs_ids := none
    submitted_songs_ids := none }

def wSong : SongRow :=
  { song_id := "SONG1"
    is_being_hidden := false
    user_id := 1
    song_name := b64e [84]
    is_explicit := false
    vote_count := 0 }

def wState : DBState :=
  { users := [wUser], songs := [wSong], song_votes := []
    song_submissions := [], next_user_id := 2 }

/-! ## Claims about schema construction (C7, C8) -/

/-- C7: `ensure_schema` (the pair `construct_mysql_database` /
`construct_sqlite_database`) is idempotent and non-destructive: a second
call returns `already_present` (1) and changes nothing; on a store where
any table already exists it returns 1 without executing any DDL; the
existing tables are always preserved as a prefix of the result; and
creation from an empty store introduces no duplicate table. -/
theorem schema_construction_idempotent (tables : List String) :
    (construct_mysql_database (construct_mysql_database tables).2
       = (1, (construct_mysql_database tables).2) ∧
     construct_sqlite_database (construct_sqlite_database tables).2
       = (1, (construct_sqlite_database tables).2)) ∧
    (tables ≠ [] →
       construct_mysql_database tables = (1, tables) ∧
       construct_mysql_trace tables = [] ∧
       construct_sqlite_database tables = (1, tables) ∧
       construct_sqlite_trace tables = []) ∧
    (∃ created, (construct_mysql_database tables).2 = tables ++ created) ∧
    (∃ created, (construct_sqlite_database tables).2 = tables ++ created) ∧
    (tables = [] →
       (construct_mysql_database tables).2.Nodup ∧
       (construct_sqlite_database tables).2.Nodup) := by
  cases tables with
  | nil =>
      exact ⟨⟨by decide, by decide⟩, fun h => absurd rfl h,
        ⟨createdNames mysql_table_creation_queries, rfl⟩,
        ⟨createdNames sqlite_tables, rfl⟩,
        fun _ => ⟨by decide, by decide⟩⟩
  | cons a t =>
      refine ⟨⟨rfl, rfl⟩, fun _ => ⟨rfl, rfl, rfl, rfl⟩,
        ⟨[], (List.append_nil _).symm⟩, ⟨[], (List.append_nil _).symm⟩,
        fun h => absurd h (by simp)⟩

theorem schema_construction_idempotent_witness :
    construct_mysql_database ["Extra"] = (1, ["Extra"]) ∧
    construct_mysql_trace ["Extra"] = [] ∧
    construct_sqlite_database ["Extra"] = (1, ["Extra"]) ∧
    construct_sqlite_trace ["Extra"] = [] :=
  (schema_construction_idempotent ["Extra"]).2.1 (by simp)

/-- C8 counterexample: the client/server engine adds five separate
foreign-key constraint statements, not four as claimed. -/
theorem mysql_fk_count_not_four :
    ¬ mysql_foreign_key_constraints.length = 4 := by decide

/-- C8 (amended): on the client/server engine, schema creation runs the
four CREATE TABLE statements (none with an inline foreign key) and then
exactly five ALTER TABLE foreign-key constraint statements, each after
all table creation; the embedded engine runs only CREATE TABLE
statements with its five foreign keys declared inline. -/
theorem mysql_fk_separate_sqlite_inline :
    construct_mysql_trace []
      = mysql_table_creation_queries ++ mysql_foreign_key_constraints ∧
    mysql_table_creation_queries.length = 4 ∧
    (∀ d ∈ mysql_table_creation_queries,
       d.isCreateTable = true ∧ d.inlineFKCount = 0) ∧
    mysql_foreign_key_constraints.length = 5 ∧
    (∀ d ∈ mysql_foreign_key_constraints, d.isCreateTable = false) ∧
    construct_sqlite_trace [] = sqlite_tables ∧
    sqlite_tables.length = 4 ∧
    (∀ d ∈ sqlite_tables, d.isCreateTable = true) ∧
    (sqlite_tables.map DDL.inlineFKCount).sum = 5 :=
  ⟨rfl, rfl, by decide, rfl, by decide, rfl, rfl, by decide, by decide⟩

/-! ## Claim about `update_user_login_info` (C10) -/

/-- C10 counterexample: on the client/server engine, `record_login` for
a user with no row returns `False`, not success — its `?`-parameterized
UPDATE raises client-side and is caught as the failure result — so the
claim that every such call reports success is false there. -/
theorem record_login_mysql_reports_failure :
    update_user_login_info .mysql false 7 "9.9.9.9" "2024-01-02 10:00:00"
      emptyDB = (false, emptyDB) := rfl

/-- C10 (amended): on the embedded engine, `record_login` for a
`user_id` with no row in Users reports success and leaves the store
unchanged (the UPDATE matches zero rows), and only a storage fault
produces the failure result; on the client/server engine every
`record_login` call returns failure with the store unchanged, because
the parameterized UPDATE raises client-side before executing. -/
theorem record_login_missing_user_reports_success
    (user_id : Nat) (ip now : String) (s : DBState)
    (habsent : ∀ r ∈ s.users, r.user_id ≠ user_id) :
    update_user_login_info .sqlite false user_id ip now s = (true, s) ∧
    update_user_login_info .sqlite true user_id ip now s = (false, s) ∧
    (∀ fault : Bool,
       update_user_login_info .mysql fault user_id ip now s = (false, s)) := by
  have hmap := users_map_untouched s.users user_id
    (fun r => { r with last_login_datetime := now, last_login_ip := ip })
    habsent
  refine ⟨?_, rfl, fun _ => rfl⟩
  simp only [update_user_login_info]
  rw [hmap]
  rfl

theorem record_login_missing_user_witness :
    update_user_login_info .sqlite false 7 "9.9.9.9" "2024-01-02 10:00:00"
      emptyDB = (true, emptyDB) :=
  (record_login_missing_user_reports_success 7 "9.9.9.9"
    "2024-01-02 10:00:00" emptyDB (by simp [emptyDB])).1

/-! ## Claims about `vote_song` (C1, C2) -/

/-- denormalized vote counter of the Songs row keyed `sid`. -/
def songVoteCount (s : DBState) (sid : String) : Option Nat :=
  (s.songs.find? (fun r => r.song_id == sid)).map SongRow.vote_count

/-- committing the vote statements bumps the counter of the row keyed
`sid` by exactly one and no other counter. -/
theorem songVoteCount_voteEffect (s : DBState) (u : Nat) (sid t : String) :
    songVoteCount (voteEffect u sid t s) sid
      = (songVoteCount s sid).map (· + 1) := by
  simp only [songVoteCount, voteEffect]
  rw [List.find?_map]
  have hpf : (fun (r : SongRow) => r.song_id == sid) ∘
      (fun r => if r.song_id == sid then { r with vote_count := r.vote_count + 1 }
                else r)
      = (fun (r : SongRow) => r.song_id == sid) := by
    funext r
    by_cases h : r.song_id = sid <;> simp [h]
  rw [hpf]
  cases hfind : s.songs.find? (fun r => r.song_id == sid) with
  | none => rfl
  | some r0 =>
      have hp : r0.song_id = sid := by simpa using List.find?_some hfind
      simp [hp]

/-- C1 counterexample: on the client/server engine the claim fails at
its very first step.  With song "SONG1" present and no prior (1,
"SONG1") vote row, the fault-free first `vote_song` call already returns
`False` and inserts nothing — the `?`-parameterized check SELECT raises
client-side and the handler returns the failure value — so the first
call is never `accepted` and the vote count never increases. -/
theorem vote_first_call_mysql_rejected :
    vote_song .mysql false false false false 1 "SONG1" "t1" wState
      = (false, wState) := rfl

/-- C1 (amended): on the embedded engine, with no existing (u, sid) vote
row and sid present in Songs, the first `vote_song` call returns `True`,
appends exactly one vote row, and bumps sid's `vote_count` by exactly 1;
the second call returns `False` and leaves the entire state (vote rows,
counters, `voted_songs_ids`) unchanged.  On the client/server engine
every `vote_song` call returns `False` with the store untouched. -/
theorem vote_accepted_then_already_voted (s : DBState)
    (u : Nat) (sid t1 t2 : String)
    (hnov : ∀ v ∈ s.song_votes, ¬(v.user_id = u ∧ v.song_id = sid))
    (hsong : s.songs.any (fun r => r.song_id == sid) = true) :
    (vote_song .sqlite false false false false u sid t1 s).1 = true ∧
    (vote_song .sqlite false false false false u sid t1 s).2.song_votes
      = s.song_votes ++ [{ user_id := u, song_id := sid, vote_datetime := t1 }] ∧
    (∃ k, songVoteCount s sid = some k ∧
       songVoteCount (vote_song .sqlite false false false false u sid t1 s).2 sid
         = some (k + 1)) ∧
    vote_song .sqlite false false false false u sid t2
        (vote_song .sqlite false false false false u sid t1 s).2
      = (false, (vote_song .sqlite false false false false u sid t1 s).2) ∧
    (∀ fc f1 f2 f3 : Bool, vote_song .mysql fc f1 f2 f3 u sid t1 s = (false, s)) := by
  have hchk : s.song_votes.any
      (fun v => v.user_id == u && v.song_id == sid) = false := by
    rw [List.any_eq_false]
    intro v hv
    have hnv := hnov v hv
    simp only [Bool.and_eq_true, beq_iff_eq]
    tauto
  have hrun : vote_song .sqlite false false false false u sid t1 s
      = (true, voteEffect u sid t1 s) := by
    simp [vote_song, hchk]
  have hcheck2 : (voteEffect u sid t1 s).song_votes.any
      (fun v => v.user_id == u && v.song_id == sid) = true := by
    simp [voteEffect, List.any_append]
  have hrun2 : vote_song .sqlite false false false false u sid t2 (voteEffect u sid t1 s)
      = (false, voteEffect u sid t1 s) := by
    simp [vote_song, hcheck2]
  obtain ⟨r0, hfind⟩ := Option.isSome_iff_exists.mp
    (List.find?_isSome.mpr (List.any_eq_true.mp hsong))
  refine ⟨by rw [hrun], by rw [hrun]; rfl, ?_, by rw [hrun]; exact hrun2,
    fun _ _ _ _ => rfl⟩
  refine ⟨r0.vote_count, by simp [songVoteCount, hfind], ?_⟩
  rw [hrun, songVoteCount_voteEffect]
  simp [songVoteCount, hfind]

theorem vote_accepted_then_already_voted_witness :
    (vote_song .sqlite false false false false 1 "SONG1" "t1" wState).1 = true ∧
    vote_song .sqlite false false false false 1 "SONG1" "t2"
        (vote_song .sqlite false false false false 1 "SONG1" "t1" wState).2
      = (false, (vote_song .sqlite false false false false 1 "SONG1" "t1" wState).2) := by
  have h := vote_accepted_then_already_voted wState 1 "SONG1" "t1" "t2"
    (by simp [wState]) (by decide)
  exact ⟨h.1, h.2.2.2.1⟩

/-- store where user 1 has already voted for "SONG1". -/
def wVotedState : DBState :=
  { wState with
    song_votes := [{ user_id := 1, song_id := "SONG1", vote_datetime := "t0" }]
    songs := [{ wSong with vote_count := 1 }]
    users := [{ wUser with voted_songs_ids := some "SONG1" }] }

/-- C2 counterexample: `vote_song` does not return three mutually
distinguishable outcomes.  On the already-voted path (no fault) and on
a storage-fault path it returns the same value `False`, so a caller
cannot tell the two apart from the returned value alone. -/
theorem vote_outcomes_not_three :
    vote_song .sqlite false false false false 1 "SONG1" "t" wVotedState
      = (false, wVotedState) ∧
    vote_song .sqlite false true false false 1 "SONG1" "t" wState
      = (false, wState) ∧
    (vote_song .sqlite false false false false 1 "SONG1" "t" wVotedState).1
      = (vote_song .sqlite false true false false 1 "SONG1" "t" wState).1 := by
  refine ⟨?_, rfl, ?_⟩ <;> decide

/-- C2 (amended): `vote_song` returns a bare boolean with only two
distinguishable outcomes: `True` exactly when the embedded engine is
active, no statement faults, and no (user, song) vote row already exists
— i.e. when a new vote is recorded — and `False` otherwise, covering the
already-voted case, every storage-fault case, and every client/server
call (whose parameterized statements raise client-side); already_voted
and failure are therefore not distinguishable from the returned value. -/
theorem vote_returns_two_valued_bool (db : DbType) (fc f1 f2 f3 : Bool)
    (u : Nat) (sid t : String) (s : DBState) :
    (vote_song db fc f1 f2 f3 u sid t s).1 = true ↔
      (db = .sqlite ∧ fc = false ∧ f1 = false ∧ f2 = false ∧ f3 = false ∧
       s.song_votes.any (fun v => v.user_id == u && v.song_id == sid) = false) := by
  cases db with
  | mysql => simp [vote_song]
  | sqlite =>
      cases fc <;> cases f1 <;> cases f2 <;> cases f3 <;>
        cases hchk : s.song_votes.any (fun v => v.user_id == u && v.song_id == sid) <;>
          simp [vote_song, hchk]

/-! ## Claim about `submit_song` (C5) -/

/-- C5: `submit_song` executes its three statements as one atomic unit:
with a fresh `song_id`, if no statement faults, all three effects are
committed — the Songs row with `vote_count` 0 and hidden false, the
Submission row, and the owner update setting
`last_song_submission_datetime` and applying the null-vs-comma-append
rule to `submitted_songs_ids` — and `True` is returned; if any of the
three statements faults, the state is returned unchanged and `False` is
returned.  On the client/server engine every call takes the failure
branch of this contract — the first parameterized INSERT raises
client-side, so `False` is returned with the state unchanged and no
partial commit ever occurs; the success branch is realizable only on
the embedded engine. -/
theorem submit_song_atomic (f1 f2 f3 : Bool) (u : Nat)
    (sid : String) (name : List Nat) (ex : Bool) (t : String) (s : DBState)
    (hfresh : s.songs.any (fun r => r.song_id == sid) = false) :
    (f1 = false ∧ f2 = false ∧ f3 = false →
       submit_song .sqlite f1 f2 f3 u sid name ex t s
         = (true, submitSongEffect u sid (b64e name) ex t s) ∧
       (submitSongEffect u sid (b64e name) ex t s).songs
         = s.songs ++ [{ song_id := sid, is_being_hidden := false, user_id := u,
                         song_name := b64e name, is_explicit := ex,
                         vote_count := 0 }] ∧
       (submitSongEffect u sid (b64e name) ex t s).song_submissions
         = s.song_submissions ++
             [{ user_id := u, song_id := sid, submission_datetime := t }] ∧
       (submitSongEffect u sid (b64e name) ex t s).users
         = s.users.map (fun r =>
             if r.user_id == u then
               { r with last_song_submission_datetime := some t,
                        submitted_songs_ids := appendId r.submitted_songs_ids sid }
             else r)) ∧
    (f1 = true ∨ f2 = true ∨ f3 = true →
       submit_song .sqlite f1 f2 f3 u sid name ex t s = (false, s)) ∧
    submit_song .mysql f1 f2 f3 u sid name ex t s = (false, s) := by
  refine ⟨?_, ?_, rfl⟩
  · rintro ⟨h1, h2, h3⟩
    subst h1; subst h2; subst h3
    refine ⟨?_, rfl, rfl, rfl⟩
    simp [submit_song, hfresh]
  · intro h
    cases f1 <;> cases f2 <;> cases f3 <;>
      simp_all [submit_song, hfresh]

theorem submit_song_atomic_witness :
    submit_song .sqlite false false false 1 "SONG2" [84, 50] false "t3" wState
      = (true, submitSongEffect 1 "SONG2" (b64e [84, 50]) false "t3" wState) ∧
    submit_song .sqlite true false false 1 "SONG2" [84, 50] false "t3" wState
      = (false, wState) := by
  have h := submit_song_atomic false false false 1 "SONG2" [84, 50]
    false "t3" wState (by decide)
  have hf := submit_song_atomic true false false 1 "SONG2" [84, 50]
    false "t3" wState (by decide)
  exact ⟨(h.1 ⟨rfl, rfl, rfl⟩).1, hf.2.1 (Or.inl rfl)⟩

/-! ## Claim about obfuscation round-trip (C6) -/

/-- C6: `b64d` is the exact inverse of `b64e` on byte lists, and the
stored obfuscated username round-trips through registration: after a
successful `register_new_user`, the returned id is the fresh surrogate
key and `get_user_details` of that id returns the original (unencoded)
username together with the registered login data.  Registration can
succeed only on the embedded engine — the client/server branch raises
client-side on its parameterized INSERT and always returns -1 with the
store untouched, so the claim's "after register succeeds" premise is
realizable only there. -/
theorem obfuscation_roundtrip_register_get (u : List Nat)
    (hu : ∀ b ∈ u, b < 256) (ip t : String) (s : DBState)
    (hfresh : ∀ r ∈ s.users, r.user_id ≠ s.next_user_id) :
    b64d (b64e u) = some u ∧
    (register_new_user .sqlite false u ip t s).1 = Int.ofNat s.next_user_id ∧
    get_user_details .sqlite false s.next_user_id
        (register_new_user .sqlite false u ip t s).2
      = .ok (some { user_id := s.next_user_id
                    username := u
                    first_login_datetime := t
                    last_login_datetime := t
                    first_login_ip := ip
                    last_login_ip := ip
                    last_song_submission_datetime := none
                    voted_songs_ids := none
                    submitted_songs_ids := none }) ∧
    (∀ fault : Bool, register_new_user .mysql fault u ip t s = (-1, s)) := by
  have hrt := b64_roundtrip u hu
  refine ⟨hrt, rfl, ?_, fun _ => rfl⟩
  have hreg : (register_new_user .sqlite false u ip t s).2
      = { s with users := s.users ++ [registeredUser s.next_user_id u ip t]
                 next_user_id := s.next_user_id + 1 } := rfl
  rw [hreg]
  have hnone : s.users.find? (fun r => r.user_id == s.next_user_id) = none := by
    rw [List.find?_eq_none]
    intro r hr
    simp [hfresh r hr]
  simp [get_user_details, List.find?_append, hnone, registeredUser, hrt]

theorem obfuscation_roundtrip_register_get_witness :
    b64d (b64e [97, 108, 105, 99, 101]) = some [97, 108, 105, 99, 101] ∧
    get_user_details .sqlite false 1
        (register_new_user .sqlite false [97, 108, 105, 99, 101]
          "1.2.3.4" "t0" emptyDB).2
      = .ok (some { user_id := 1
                    username := [97, 108, 105, 99, 101]
                    first_login_datetime := "t0"
                    last_login_datetime := "t0"
                    first_login_ip := "1.2.3.4"
                    last_login_ip := "1.2.3.4"
                    last_song_submission_datetime := none
                    voted_songs_ids := none
                    submitted_songs_ids := none }) := by
  have h := obfuscation_roundtrip_register_get [97, 108, 105, 99, 101]
    (by decide) "1.2.3.4" "t0" emptyDB (by simp [emptyDB])
  exact ⟨h.1, h.2.2.1⟩

/-! ## Claim about `update_username` vs `user_exists` encodings (C9) -/

/-- C9: `update_username` stores the new username unencoded while
`user_exists` searches for its base64-encoded form, so a successful
rename makes the existence check miss the user.  On the embedded engine
(the only one where rename can succeed — the client/server branch always
raises), renaming user `i` to a nonempty `u` yields a state in which
`user_exists u` is `False` on either engine, provided no other stored
row coincidentally holds the encoded form; the root cause is that a
nonempty byte string never equals its own base64 encoding. -/
theorem rename_breaks_lookup (u : List Nat) (hne : u ≠ []) (i : Nat)
    (s : DBState)
    (hother : ∀ r ∈ s.users, r.user_id ≠ i → r.username ≠ b64e u) :
    b64e u ≠ u ∧
    update_username .sqlite false i u s
      = .ok (true, { s with users := s.users.map (fun r =>
          if r.user_id == i then { r with username := u } else r) }) ∧
    ∀ db : DbType,
      user_exists db false u
        { s with users := s.users.map (fun r =>
            if r.user_id == i then { r with username := u } else r) }
        = false := by
  have hneq : b64e u ≠ u := b64e_ne_self u hne
  refine ⟨hneq, rfl, ?_⟩
  intro db
  have hall : (s.users.map (fun r =>
      if r.user_id == i then { r with username := u } else r)).any
        (fun r => r.username == b64e u) = false := by
    rw [List.any_eq_false]
    intro r hr
    rw [List.mem_map] at hr
    obtain ⟨r0, hr0, hins⟩ := hr
    by_cases hid : r0.user_id = i
    · rw [if_pos (by simpa using hid)] at hins
      subst hins
      simp only [beq_iff_eq]
      exact fun h => hneq h.symm
    · rw [if_neg (by simpa using hid)] at hins
      subst hins
      simpa using hother r0 hr0 hid
  cases db with
  | mysql => rfl
  | sqlite => simpa [user_exists] using hall

theorem rename_breaks_lookup_witness :
    b64e [98, 111, 98] ≠ [98, 111, 98] ∧
    user_exists .sqlite false [98, 111, 98]
      { wState with users := wState.users.map (fun r =>
          if r.user_id == 1 then { r with username := [98, 111, 98] } else r) }
      = false := by
  have h := rename_breaks_lookup [98, 111, 98] (by decide) 1 wState (by decide)
  exact ⟨h.1, h.2.2 .sqlite⟩

/-! ## Engine equivalence and fault propagation (C3, C4) -/

/-- C3 evidence: the two engines do not produce identical logical
results and error outcomes for every repository operation.  Fault-free
`update_username` succeeds and commits on the embedded engine but raises
`AttributeError` on the client/server engine (the cursor has no
`commit`/`rollback` method); fault-free `get_songs_and_info` returns the
song listing on the embedded engine but always `None` on the
client/server engine (invalid `dictionary=True` cursor argument). -/
theorem engines_not_equivalent :
    update_username .sqlite false 1 [98, 111, 98] wState
      = .ok (true, { wState with users := [{ wUser with username := [98, 111, 98] }] }) ∧
    update_username .mysql false 1 [98, 111, 98] wState
      = .error .attributeError ∧
    get_songs_and_info .sqlite false wState ≠ none ∧
    get_songs_and_info .mysql false wState = none := by
  refine ⟨rfl, rfl, ?_, rfl⟩
  decide

/-- C4 evidence: exceptions do escape the repository boundary.  On the
client/server engine `update_username` always escapes with an
`AttributeError`: the exception from its UPDATE is caught, but the
handler itself raises (`cur.rollback` does not exist on a cursor);
`get_user_details` has no handler at all, so on the embedded engine a
storage fault during its SELECT escapes, and on the client/server
engine every call escapes with `ProgrammingError` (its parameterized
SELECT never executes) — including the lookup of a nonexistent id,
which the claim says returns absent and never raises.  Only the
embedded fault-free lookup returns the absent value as claimed. -/
theorem storage_faults_escape :
    update_username .mysql true 1 [98, 111, 98] wState
      = .error .attributeError ∧
    get_user_details .sqlite true 999 wState = .error .storageFault ∧
    get_user_details .mysql true 999 wState = .error .programmingError ∧
    get_user_details .mysql false 999 wState = .error .programmingError ∧
    get_user_details .sqlite false 999 wState = .ok none :=
  ⟨rfl, rfl, rfl, rfl, rfl⟩
